import Mathlib

/-!
Verification of the slide-cleaning, response-recovery and orchestration logic of
`presentation_to_anki.py` (class `DeepSeekEnhancedConverter`).

Modelling conventions:
* Python strings are Lean `String` / `List Char`; lengths are character counts.
* `json.loads` is embedded as a fuel-based recursive-descent parser over
  `List Char`; JSON numbers are modelled as integers (float literals make the
  embedded parse fail, a documented restriction that only narrows the set of
  inputs on which stage 1 succeeds).
* The concrete regular expressions of the source are embedded through a small
  backtracking engine over an `Atom` list (concatenations of literals, character
  classes, greedy/lazy stars and optional quotes), mirroring Python `re`
  semantics: leftmost match, greedy tries longest first, lazy tries shortest
  first, `$` also matches before a final newline.
* The external completion client is an oracle parameter: per attempt it either
  raises (`Except.error`) or yields a list of question/answer pairs.
* File writing, progress callbacks and the GUI are out of scope, as in the spec.
-/

namespace PresentationToAnki

/-- JSON values as produced by `json.loads`; numbers are modelled as integers. -/
inductive Json where
  | null
  | bool (b : Bool)
  | num (n : Int)
  | str (s : String)
  | arr (xs : List Json)
  | obj (kvs : List (String × Json))

/-- The double-quote character. -/
def quoteChar : Char := Char.ofNat 34

/-- The single-quote character. -/
def apostChar : Char := Char.ofNat 39

/-- The backslash character. -/
def backslashChar : Char := Char.ofNat 92

/-- The opening brace character. -/
def lbraceChar : Char := Char.ofNat 123

/-- The closing brace character. -/
def rbraceChar : Char := Char.ofNat 125

/-- The opening bracket character. -/
def lbrackChar : Char := Char.ofNat 91

/-- The closing bracket character. -/
def rbrackChar : Char := Char.ofNat 93

/-- JSON whitespace accepted between tokens by `json.loads`. -/
def jsonWs (c : Char) : Bool := c = ' ' || c = '\t' || c = '\n' || c = '\r'

/-- Drop leading JSON whitespace. -/
def skipWs : List Char → List Char
  | [] => []
  | c :: cs => if jsonWs c then skipWs cs else c :: cs

/-- Value of a hexadecimal digit. -/
def hexVal (c : Char) : Option Nat :=
  if c.isDigit then some (c.toNat - 48)
  else if 97 ≤ c.toNat ∧ c.toNat ≤ 102 then some (c.toNat - 87)
  else if 65 ≤ c.toNat ∧ c.toNat ≤ 70 then some (c.toNat - 55)
  else none

/-- Single-character JSON string escapes. -/
def escChar (c : Char) : Option Char :=
  if c = quoteChar ∨ c = backslashChar ∨ c = '/' then some c
  else if c = 'b' then some (Char.ofNat 8)
  else if c = 'f' then some (Char.ofNat 12)
  else if c = 'n' then some (Char.ofNat 10)
  else if c = 'r' then some (Char.ofNat 13)
  else if c = 't' then some (Char.ofNat 9)
  else none

/-- Parse the body of a JSON string (the opening quote already consumed),
returning the decoded characters and the remainder after the closing quote. -/
def parseStringBody : List Char → Option (List Char × List Char)
  | [] => none
  | c :: rest =>
    if c = quoteChar then some ([], rest)
    else if c = backslashChar then
      match rest with
      | [] => none
      | e :: rest2 =>
        if e = 'u' then
          match rest2 with
          | a :: b :: c2 :: d :: rest3 => do
            let ha ← hexVal a
            let hb ← hexVal b
            let hc ← hexVal c2
            let hd ← hexVal d
            let code := ((ha * 16 + hb) * 16 + hc) * 16 + hd
            let (s, r) ← parseStringBody rest3
            some (Char.ofNat code :: s, r)
          | _ => none
        else do
          let ec ← escChar e
          let (s, r) ← parseStringBody rest2
          some (ec :: s, r)
    else if c.toNat < 32 then none
    else do
      let (s, r) ← parseStringBody rest
      some (c :: s, r)

/-- Split a maximal run of decimal digits off the front of the input. -/
def digitRun : List Char → (List Char × List Char)
  | [] => ([], [])
  | c :: cs =>
    if c.isDigit then
      let (ds, r) := digitRun cs
      (c :: ds, r)
    else ([], c :: cs)

/-- Numeric value of a digit list. -/
def digitsToNat (ds : List Char) : Nat :=
  ds.foldl (fun acc c => acc * 10 + (c.toNat - 48)) 0

/-- Parse a JSON integer literal (after an optional leading minus sign). -/
def parseNumTail (neg : Bool) (cs : List Char) : Option (Json × List Char) :=
  match digitRun cs with
  | ([], _) => none
  | (ds, r) =>
    if ds.length > 1 ∧ ds.headD ' ' = '0' then none
    else
      let n : Int := Int.ofNat (digitsToNat ds)
      some (Json.num (if neg then -n else n), r)

/-- Parsing mode for `parseCore`: a single value, array items, object items. -/
inductive PMode where
  | one
  | arrItems
  | objItems

/-- Intermediate output of `parseCore`. -/
inductive POut where
  | v (j : Json)
  | vs (xs : List Json)
  | kvs (l : List (String × Json))

/-- Fuel-based core of the embedded `json.loads`; structural recursion on the
fuel keeps every equation kernel-reducible. -/
def parseCore : Nat → PMode → List Char → Option (POut × List Char)
  | 0, _, _ => none
  | fuel + 1, PMode.one, cs0 =>
    match skipWs cs0 with
    | [] => none
    | c :: rest =>
      if c = lbraceChar then
        match skipWs rest with
        | c2 :: r3 =>
          if c2 = rbraceChar then some (POut.v (Json.obj []), r3)
          else
            match parseCore fuel PMode.objItems (c2 :: r3) with
            | some (POut.kvs l, r) => some (POut.v (Json.obj l), r)
            | _ => none
        | [] => none
      else if c = lbrackChar then
        match skipWs rest with
        | c2 :: r3 =>
          if c2 = rbrackChar then some (POut.v (Json.arr []), r3)
          else
            match parseCore fuel PMode.arrItems (c2 :: r3) with
            | some (POut.vs xs, r) => some (POut.v (Json.arr xs), r)
            | _ => none
        | [] => none
      else if c = quoteChar then
        (parseStringBody rest).map (fun pr => (POut.v (Json.str (String.mk pr.1)), pr.2))
      else if c = '-' then
        (parseNumTail true rest).map (fun pr => (POut.v pr.1, pr.2))
      else if c.isDigit then
        (parseNumTail false (c :: rest)).map (fun pr => (POut.v pr.1, pr.2))
      else
        match c :: rest with
        | 't' :: 'r' :: 'u' :: 'e' :: r => some (POut.v (Json.bool true), r)
        | 'f' :: 'a' :: 'l' :: 's' :: 'e' :: r => some (POut.v (Json.bool false), r)
        | 'n' :: 'u' :: 'l' :: 'l' :: r => some (POut.v Json.null, r)
        | _ => none
  | fuel + 1, PMode.arrItems, cs =>
    match parseCore fuel PMode.one cs with
    | some (POut.v j, r) =>
      (match skipWs r with
       | c :: r2 =>
         if c = ',' then
           match parseCore fuel PMode.arrItems r2 with
           | some (POut.vs xs, rr) => some (POut.vs (j :: xs), rr)
           | _ => none
         else if c = rbrackChar then some (POut.vs [j], r2)
         else none
       | [] => none)
    | _ => none
  | fuel + 1, PMode.objItems, cs =>
    match skipWs cs with
    | c :: rest =>
      if c = quoteChar then
        match parseStringBody rest with
        | some (k, r) =>
          (match skipWs r with
           | c2 :: r2 =>
             if c2 = ':' then
               match parseCore fuel PMode.one r2 with
               | some (POut.v j, r3) =>
                 (match skipWs r3 with
                  | c3 :: r4 =>
                    if c3 = ',' then
                      match parseCore fuel PMode.objItems r4 with
                      | some (POut.kvs l, rr) => some (POut.kvs ((String.mk k, j) :: l), rr)
                      | _ => none
                    else if c3 = rbraceChar then some (POut.kvs [(String.mk k, j)], r4)
                    else none
                  | [] => none)
               | _ => none
             else none
           | [] => none)
        | none => none
      else none
    | [] => none

/-- Embedded `json.loads`: parse a whole string, requiring only trailing
whitespace after the value. -/
def json_loads (s : String) : Option Json :=
  match parseCore (2 * s.length + 2) PMode.one s.toList with
  | some (POut.v j, rest) => if (skipWs rest).isEmpty then some j else none
  | _ => none

/-- True exactly on a JSON array with at least one element. -/
def Json.isNonemptyArray : Json → Bool
  | Json.arr (_ :: _) => true
  | _ => false

/-! ### Regex engine

The source uses a handful of concrete `re` patterns.  Each is embedded as a
concatenation of atoms; `matchAtoms` implements Python backtracking semantics
(greedy repetition tries the longest candidate first, lazy the shortest,
`{0,1}` tries presence first, `$` matches at the end or before a final
newline). -/

/-- One atom of an embedded regular expression. -/
inductive Atom where
  | lit (c : Char)
  | cls (p : Char → Bool)
  | optC (p : Char → Bool)
  | starG (p : Char → Bool)
  | plusG (p : Char → Bool)
  | capStarG (p : Char → Bool)
  | capPlusG (p : Char → Bool)
  | capStarL (p : Char → Bool)
  | capPlusL (p : Char → Bool)
  | eol

/-- Length of the maximal prefix run of characters in a class. -/
def countRun (p : Char → Bool) : List Char → Nat
  | [] => 0
  | c :: cs => if p c then countRun p cs + 1 else 0

/-- Match a concatenation of atoms at the start of the input, returning the
captured groups (in order) and the unconsumed remainder.  Backtracking follows
Python `re`: the first alternative in engine priority order wins. -/
def matchAtoms : List Atom → List Char → Option (List (List Char) × List Char)
  | [], cs => some ([], cs)
  | Atom.lit c :: rest, cs =>
    match cs with
    | [] => none
    | x :: xs => if x = c then matchAtoms rest xs else none
  | Atom.cls p :: rest, cs =>
    match cs with
    | [] => none
    | x :: xs => if p x then matchAtoms rest xs else none
  | Atom.optC p :: rest, cs =>
    match cs with
    | [] => matchAtoms rest []
    | x :: xs =>
      if p x then
        match matchAtoms rest xs with
        | some r => some r
        | none => matchAtoms rest (x :: xs)
      else matchAtoms rest (x :: xs)
  | Atom.starG p :: rest, cs =>
    (List.range (countRun p cs + 1)).reverse.findSome? (fun k => matchAtoms rest (cs.drop k))
  | Atom.plusG p :: rest, cs =>
    ((List.range (countRun p cs)).map (fun k => k + 1)).reverse.findSome?
      (fun k => matchAtoms rest (cs.drop k))
  | Atom.capStarG p :: rest, cs =>
    (List.range (countRun p cs + 1)).reverse.findSome?
      (fun k => (matchAtoms rest (cs.drop k)).map (fun pr => (cs.take k :: pr.1, pr.2)))
  | Atom.capPlusG p :: rest, cs =>
    ((List.range (countRun p cs)).map (fun k => k + 1)).reverse.findSome?
      (fun k => (matchAtoms rest (cs.drop k)).map (fun pr => (cs.take k :: pr.1, pr.2)))
  | Atom.capStarL p :: rest, cs =>
    (List.range (countRun p cs + 1)).findSome?
      (fun k => (matchAtoms rest (cs.drop k)).map (fun pr => (cs.take k :: pr.1, pr.2)))
  | Atom.capPlusL p :: rest, cs =>
    ((List.range (countRun p cs)).map (fun k => k + 1)).findSome?
      (fun k => (matchAtoms rest (cs.drop k)).map (fun pr => (cs.take k :: pr.1, pr.2)))
  | Atom.eol :: rest, cs =>
    match cs with
    | [] => matchAtoms rest []
    | [x] => if x = '\n' then matchAtoms rest [x] else none
    | _ => none

/-- Embedded `re.match`: does the pattern match a prefix of the string? -/
def reMatch (atoms : List Atom) (s : String) : Bool :=
  (matchAtoms atoms s.toList).isSome

/-- Scan for the leftmost match, returning the consumed substring. -/
def reSearchList (atoms : List Atom) : List Char → Option (List Char)
  | [] => (matchAtoms atoms []).map (fun _ => [])
  | c :: rest =>
    match matchAtoms atoms (c :: rest) with
    | some (_, rem) => some (List.take ((c :: rest).length - rem.length) (c :: rest))
    | none => reSearchList atoms rest

/-- Embedded `re.search`, returning the text of the first match. -/
def reSearch (atoms : List Atom) (s : String) : Option String :=
  (reSearchList atoms s.toList).map String.mk

/-- Worker for `reFindAll`: non-overlapping leftmost matches, collecting the
captured groups of each; a zero-width match advances by one character. -/
def reFindAllList (atoms : List Atom) : Nat → List Char → List (List (List Char))
  | 0, _ => []
  | _ + 1, [] =>
    (match matchAtoms atoms [] with
     | some (caps, _) => [caps]
     | none => [])
  | fuel + 1, c :: rest =>
    match matchAtoms atoms (c :: rest) with
    | some (caps, rem) =>
      if rem.length < (c :: rest).length then caps :: reFindAllList atoms fuel rem
      else caps :: reFindAllList atoms fuel rest
    | none => reFindAllList atoms fuel rest

/-- Embedded `re.findall` (list of capture tuples). -/
def reFindAll (atoms : List Atom) (s : String) : List (List (List Char)) :=
  reFindAllList atoms (s.length + 1) s.toList

/-- Worker for `reSub`: replace non-overlapping leftmost matches. -/
def reSubList (atoms : List Atom) (repl : List (List Char) → List Char) :
    Nat → List Char → List Char
  | 0, cs => cs
  | _ + 1, [] => []
  | fuel + 1, c :: rest =>
    match matchAtoms atoms (c :: rest) with
    | some (caps, rem) =>
      if rem.length < (c :: rest).length then repl caps ++ reSubList atoms repl fuel rem
      else c :: reSubList atoms repl fuel rest
    | none => c :: reSubList atoms repl fuel rest

/-- Embedded `re.sub` with a capture-driven replacement. -/
def reSub (atoms : List Atom) (repl : List (List Char) → List Char) (s : String) : String :=
  String.mk (reSubList atoms repl (s.length + 1) s.toList)

/-- Python `\s` (ASCII portion). -/
def pyWsChar (c : Char) : Bool :=
  c = ' ' || c = '\t' || c = '\n' || c = '\r' || c.toNat = 11 || c.toNat = 12

/-- Python `\w` (ASCII portion). -/
def isWordChar (c : Char) : Bool := c.isAlphanum || c = '_'

/-- A single or double quote, the class written in the source patterns. -/
def isQuoteChar (c : Char) : Bool := c = quoteChar || c = apostChar

/-- `.` under `re.DOTALL`. -/
def anyChar (_ : Char) : Bool := true

/-- `.` without `re.DOTALL`: any character except a newline. -/
def anyNoNl (c : Char) : Bool := !(c = '\n')

/-- Python `str.strip()` (ASCII whitespace). -/
def pyStrip (s : String) : String :=
  String.mk (((s.toList.dropWhile pyWsChar).reverse.dropWhile pyWsChar).reverse)

/-- A string literal as a sequence of literal atoms. -/
def litStr (s : String) : List Atom := s.toList.map Atom.lit

/-- Split at every newline, as Python `str.split('\n')` (never empty). -/
def splitLines : List Char → List (List Char)
  | [] => [[]]
  | c :: cs =>
    let r := splitLines cs
    if c = '\n' then [] :: r
    else
      match r with
      | [] => [[c]]
      | l :: ls => (c :: l) :: ls

/-- Python `content.split('\n')` on strings. -/
def pySplitNl (s : String) : List String := (splitLines s.toList).map String.mk

/-- Python `'\n'.join(lines)`. -/
def joinNl : List String → String
  | [] => ""
  | [l] => l
  | l :: ls => l ++ "\n" ++ joinNl ls

/-- Python `str.lower()` (ASCII case folding suffices for the extensions the
source compares against). -/
def pyLower (s : String) : String := String.mk (s.toList.map Char.toLower)

/-! ### Data model (spec section 3, source lines 75-79, 209-214) -/

/-- A slide record as produced by the extractor. -/
structure Slide where
  title : String
  content : String
  slide_num : Nat
deriving DecidableEq

/-- A question/answer pair as recovered from a model response. -/
structure QA where
  question : String
  answer : String
deriving DecidableEq

/-- A full card as appended to the output list. -/
structure Card where
  question : String
  answer : String
  slide : String
  context : String
deriving DecidableEq

/-! ### Slide cleaner (`clean_slide_content`, source lines 124-152) -/

/-- Pattern `\w+ \d+, \d{4} .+ \d+` (date-like prefix, trailing text, number). -/
def headerPat1 : List Atom :=
  [Atom.plusG isWordChar, Atom.lit ' ', Atom.plusG Char.isDigit, Atom.lit ',', Atom.lit ' ',
   Atom.cls Char.isDigit, Atom.cls Char.isDigit, Atom.cls Char.isDigit, Atom.cls Char.isDigit,
   Atom.lit ' ', Atom.plusG anyNoNl, Atom.lit ' ', Atom.plusG Char.isDigit]

/-- Pattern `^\d+$` (purely numeric title; `$` also matches before a final
newline, as in Python). -/
def headerPat2 : List Atom := [Atom.plusG Char.isDigit, Atom.eol]

/-- Pattern `Slide \d+` under `re.match` (a prefix match). -/
def headerPat3 : List Atom := litStr "Slide " ++ [Atom.plusG Char.isDigit]

/-- Does the title match one of the three boilerplate header patterns?  The
source loop breaks at the first match, but all three loop bodies are identical,
so a short-circuit disjunction is an exact embedding. -/
def title_is_boilerplate (t : String) : Bool :=
  reMatch headerPat1 t || reMatch headerPat2 t || reMatch headerPat3 t

/-- Embedded `clean_slide_content`: if the title looks like boilerplate and the
first line of the content is non-blank, promote that line (stripped) to the
title and keep the remaining lines (joined and stripped) as content. -/
def clean_slide_content (s : Slide) : Slide :=
  if title_is_boilerplate s.title then
    match pySplitNl s.content with
    | [] => s
    | l0 :: ls =>
      if pyStrip l0 ≠ "" then
        { title := pyStrip l0
          content := pyStrip (joinNl ls)
          slide_num := s.slide_num }
      else s
  else s

/-! ### Response recovery (`_ask_ai_for_cards`, source lines 253-293) -/

/-- Stage-2 search pattern `\[\s*\{.*\}\s*\]` with `re.DOTALL`. -/
def jsonArrayPat : List Atom :=
  [Atom.lit lbrackChar, Atom.starG pyWsChar, Atom.lit lbraceChar,
   Atom.starG anyChar, Atom.lit rbraceChar, Atom.starG pyWsChar, Atom.lit rbrackChar]

/-- The stage-2 candidate substring found by `re.search`, if any. -/
def stage2_candidate (t : String) : Option String := reSearch jsonArrayPat t

/-- Sub pattern `(\w+):` with replacement `"\1":` (quote bare object keys). -/
def quoteKeysPat : List Atom := [Atom.capPlusG isWordChar, Atom.lit ':']

/-- Replacement for `quoteKeysPat`. -/
def quoteKeysRepl (caps : List (List Char)) : List Char :=
  match caps with
  | [g] => quoteChar :: g ++ [quoteChar, ':']
  | _ => []

/-- Embedded `re.sub(r'(\w+):', r'"\1":', s)`. -/
def fix_keys (s : String) : String := reSub quoteKeysPat quoteKeysRepl s

/-- Sub pattern `:\s*"([^"]*)"` with replacement `: "\1"`. -/
def valueSpacingPat : List Atom :=
  [Atom.lit ':', Atom.starG pyWsChar, Atom.lit quoteChar,
   Atom.capStarG (fun c => !(c = quoteChar)), Atom.lit quoteChar]

/-- Replacement for `valueSpacingPat`. -/
def valueSpacingRepl (caps : List (List Char)) : List Char :=
  match caps with
  | [g] => ':' :: ' ' :: quoteChar :: g ++ [quoteChar]
  | _ => []

/-- Embedded `re.sub(r':\s*"([^"]*)"', r': "\1"', s)`. -/
def fix_value_spacing (s : String) : String := reSub valueSpacingPat valueSpacingRepl s

/-- Stage 2 as a whole: extract the bracketed candidate, apply the two textual
repairs, and parse the result as JSON. -/
def stage2_parse (t : String) : Option Json :=
  (stage2_candidate t).bind (fun sub => json_loads (fix_value_spacing (fix_keys sub)))

/-- Stage-3 pattern: `["\']{0,1}question["\']{0,1}\s*:\s*["\'](.*?)["\']\s*,\s*`
`["\']{0,1}answer["\']{0,1}\s*:\s*["\'](.*?)["\']` with `re.DOTALL`. -/
def qaPat : List Atom :=
  [Atom.optC isQuoteChar] ++ litStr "question" ++
  [Atom.optC isQuoteChar, Atom.starG pyWsChar, Atom.lit ':', Atom.starG pyWsChar,
   Atom.cls isQuoteChar, Atom.capStarL anyChar, Atom.cls isQuoteChar,
   Atom.starG pyWsChar, Atom.lit ',', Atom.starG pyWsChar,
   Atom.optC isQuoteChar] ++ litStr "answer" ++
  [Atom.optC isQuoteChar, Atom.starG pyWsChar, Atom.lit ':', Atom.starG pyWsChar,
   Atom.cls isQuoteChar, Atom.capStarL anyChar, Atom.cls isQuoteChar]

/-- Stage-3 pairs: `re.findall` of `qaPat`, each capture stripped. -/
def stage3_pairs (t : String) : List (String × String) :=
  (reFindAll qaPat t).filterMap (fun caps =>
    match caps with
    | [q, a] => some (pyStrip (String.mk q), pyStrip (String.mk a))
    | _ => none)

/-- Whitespace-or-quote class `[\s"\']`. -/
def wsOrQuote (c : Char) : Bool := pyWsChar c || isQuoteChar c

/-- Stage-4 question pattern `question["\']?:[\s"\']*(.+?)[\s"\']*,` (no
DOTALL, so `.` excludes newlines). -/
def qBlockPat : List Atom :=
  litStr "question" ++
  [Atom.optC isQuoteChar, Atom.lit ':', Atom.starG wsOrQuote,
   Atom.capPlusL anyNoNl, Atom.starG wsOrQuote, Atom.lit ',']

/-- Stage-4 answer pattern `answer["\']?:[\s"\']*(.+?)[\s"\']*[},]`. -/
def aBlockPat : List Atom :=
  litStr "answer" ++
  [Atom.optC isQuoteChar, Atom.lit ':', Atom.starG wsOrQuote,
   Atom.capPlusL anyNoNl, Atom.starG wsOrQuote,
   Atom.cls (fun c => c = rbraceChar || c = ',')]

/-- Remove every single or double quote, as `re.sub(r'["\']', '', s)` does. -/
def stripQuotes (s : String) : String :=
  String.mk (s.toList.filter (fun c => !(isQuoteChar c)))

/-- Stage-4 pairs: the two block scans zipped positionally up to the shorter
length, each side de-quoted and stripped. -/
def stage4_pairs (t : String) : List (String × String) :=
  let qBlocks := (reFindAll qBlockPat t).filterMap (fun caps =>
    match caps with
    | [g] => some (String.mk g)
    | _ => none)
  let aBlocks := (reFindAll aBlockPat t).filterMap (fun caps =>
    match caps with
    | [g] => some (String.mk g)
    | _ => none)
  (List.zip qBlocks aBlocks).map (fun p => (pyStrip (stripQuotes p.1), pyStrip (stripQuotes p.2)))

/-- A `{question: q, answer: a}` object as built by stages 3-5. -/
def mkQA (q a : String) : Json :=
  Json.obj [("question", Json.str q), ("answer", Json.str a)]

/-- Pairs used by the manual-extraction stages: stage 3, else stage 4. -/
def stage34_pairs (t : String) : List (String × String) :=
  match stage3_pairs t with
  | [] => stage4_pairs t
  | ps => ps

/-- Stages 3-5 of the recovery chain: collected pairs, or the single
"Review this slide" pair echoing the slide text. -/
def stage345 (t s : String) : Json :=
  match stage34_pairs t with
  | [] => Json.arr [mkQA "Review this slide" s]
  | ps => Json.arr (ps.map (fun p => mkQA p.1 p.2))

/-- Result of the recovery chain, instrumented with the only stage-specific
observable side effect the spec names: whether the quote-repair transform of
stage 2 was applied (it runs exactly when stage 1 fails and the bracket search
finds a candidate). -/
structure RecoverOut where
  cards : Json
  quote_repair_done : Bool

/-- The parsing portion of `_ask_ai_for_cards` (source lines 253-293), applied
to the response text and the slide text sent in the prompt.  The quote-repair
transform runs exactly when stage 1 fails and the bracket search finds a
candidate, which is when `stage2_parse` is consulted. -/
def ask_ai_recover (cards_text slide_text : String) : RecoverOut :=
  match json_loads cards_text with
  | some v => ⟨v, false⟩
  | none =>
    if (stage2_candidate cards_text).isSome then
      match stage2_parse cards_text with
      | some v => ⟨v, true⟩
      | none => ⟨stage345 cards_text slide_text, true⟩
    else ⟨stage345 cards_text slide_text, false⟩

/-! ### Per-slide orchestration (`generate_flashcards_with_deepseek`,
source lines 154-216).  One attempt bundles the completion-client call, the
recovery chain, and the stamping loop; the client may raise, so an attempt is
an `Except`: `error` for a raised exception caught by the retry loop, `ok`
with the recovered question/answer pairs otherwise. -/

/-- Outcome oracle for the up-to-three attempts made for one slide. -/
abbrev Attempt : Type := Nat → Except Unit (List QA)

/-- The `while retry_count < max_retries and not success` loop with
`max_retries = 3`: first successful attempt wins; returns the pairs (if any)
and the number of client calls made. -/
def runAttempts (attempt : Attempt) : Option (List QA) × Nat :=
  match attempt 0 with
  | Except.ok cs => (some cs, 1)
  | Except.error _ =>
    match attempt 1 with
    | Except.ok cs => (some cs, 2)
    | Except.error _ =>
      match attempt 2 with
      | Except.ok cs => (some cs, 3)
      | Except.error _ => (none, 3)

/-- The meaningful-content gate of source line 170. -/
def has_meaningful_content (s : Slide) : Bool :=
  decide (3 < s.title.length) || decide (10 < s.content.length)

/-- Stamp every recovered pair with the slide label and the cleaned title as
context (source lines 189-191). -/
def stampCards (qas : List QA) (cleaned : Slide) : List Card :=
  qas.map (fun qa =>
    { question := qa.question
      answer := qa.answer
      slide := "Slide " ++ toString cleaned.slide_num
      context := cleaned.title })

/-- The basic-card fallback of source lines 203-214: only a slide with a
non-empty cleaned title gets the synthetic card. -/
def fallback_cards (cleaned : Slide) : List Card :=
  if cleaned.title ≠ "" then
    [{ question := "Explain the concept of: " ++ cleaned.title
       answer := if cleaned.content ≠ "" then cleaned.content else "Review the slide content."
       slide := "Slide " ++ toString cleaned.slide_num
       context := "Auto-generated (DeepSeek API failed)" }]
  else []

/-- Processing of a single slide inside the main loop (source lines 160-214):
clean, gate, retry loop, fallback.  Returns the cards contributed by the slide
and the number of completion-client calls made for it. -/
def slideCards (attempt : Attempt) (slide : Slide) : List Card × Nat :=
  let cleaned := clean_slide_content slide
  if has_meaningful_content cleaned then
    match runAttempts attempt with
    | (some qas, n) => (stampCards qas cleaned, n)
    | (none, n) => (fallback_cards cleaned, n)
  else ([], 0)

/-- Worker for the slide loop; the oracle is indexed by slide position. -/
def generate_flashcards_aux (attempt : Nat → Attempt) : Nat → List Slide → List Card × Nat
  | _, [] => ([], 0)
  | i, s :: rest =>
    let here := slideCards (attempt i) s
    let there := generate_flashcards_aux attempt (i + 1) rest
    (here.1 ++ there.1, here.2 + there.2)

/-- Embedded `generate_flashcards_with_deepseek`: all cards of all slides, in
slide order, plus the total number of completion-client calls. -/
def generate_flashcards_with_deepseek (attempt : Nat → Attempt) (slides : List Slide) :
    List Card × Nat :=
  generate_flashcards_aux attempt 0 slides

/-! ### Deck builder (`create_anki_deck`, source lines 295-312) -/

/-- A genanki note: its ordered visible fields. -/
structure Note where
  fields : List String
deriving DecidableEq

/-- A genanki deck: identifier, name, and ordered notes. -/
structure Deck where
  deck_id : Nat
  name : String
  notes : List Note
deriving DecidableEq

/-- The note built for one card (source lines 301-309). -/
def noteOfCard (c : Card) : Note :=
  { fields := [c.question, c.answer, c.slide, c.context] }

/-- The `for card in cards: deck.add_note(...)` loop. -/
def addNotes (deck : Deck) : List Card → Deck
  | [] => deck
  | c :: cs => addNotes { deck with notes := deck.notes ++ [noteOfCard c] } cs

/-- Embedded `create_anki_deck`: the random deck identifier is an explicit
parameter. -/
def create_anki_deck (deck_id : Nat) (cards : List Card) (deck_name : String) : Deck :=
  addNotes { deck_id := deck_id, name := deck_name, notes := [] } cards

/-! ### File processing (`process_file`, source lines 314-352) -/

/-- Last index of a character, if present. -/
def lastIdxOf (c : Char) (l : List Char) : Option Nat :=
  (l.enum.filter (fun p => p.2 = c)).foldl (fun _ p => some p.1) none

/-- Embedded `os.path.splitext(p)[1]` (posix rules): the suffix from the last
dot of the basename, unless every character before that dot in the basename is
itself a dot. -/
def splitext_ext (p : String) : String :=
  let cs := p.toList
  let base := match lastIdxOf '/' cs with
    | some i => i + 1
    | none => 0
  match lastIdxOf '.' cs with
  | none => ""
  | some j =>
    if base ≤ j ∧ ((cs.take j).drop base).any (fun c => !(c = '.')) then
      String.mk (cs.drop j)
    else ""

/-- Embedded `process_file` up to deck creation (file writing is an external
collaborator, out of scope).  The extracted slides stand in for
`extract_from_pdf`; the result is the outcome together with the number of
completion-client calls made. -/
def process_file (attempt : Nat → Attempt) (extracted : List Slide)
    (file_path deck_name : String) (deck_id : Nat) : Except String Deck × Nat :=
  let file_extension := pyLower (splitext_ext file_path)
  if file_extension = ".pdf" then
    let generated := generate_flashcards_with_deepseek attempt extracted
    (Except.ok (create_anki_deck deck_id generated.1 deck_name), generated.2)
  else (Except.error ("Unsupported file format: " ++ file_extension), 0)

/-! ### Shared lemmas -/

/-- The cleaner never changes the slide number. -/
theorem clean_slide_content_slide_num (s : Slide) :
    (clean_slide_content s).slide_num = s.slide_num := by
  unfold clean_slide_content
  split
  · split
    · rfl
    · split <;> rfl
  · rfl

/-- A slide label is never the empty string. -/
theorem slide_label_ne_empty (t : String) : ("Slide " ++ t) ≠ "" := by
  intro h
  have h2 := congrArg String.length h
  simp [String.length_append] at h2
  exact absurd h2.1 (by decide)

/-- Stages 3-5 always deliver a non-empty array of question/answer objects. -/
theorem stage345_shape (t s : String) :
    ∃ ps : List (String × String), ps ≠ [] ∧
      stage345 t s = Json.arr (ps.map (fun p => mkQA p.1 p.2)) := by
  rcases h : stage34_pairs t with _ | ⟨p, ps⟩
  · refine ⟨[("Review this slide", s)], by simp, ?_⟩
    unfold stage345
    rw [h]
    rfl
  · refine ⟨p :: ps, by simp, ?_⟩
    unfold stage345
    rw [h]

/-- Unfolding equation for the fall-through of the recovery chain. -/
theorem ask_ai_recover_fallthrough (t s : String)
    (h1 : json_loads t = none) (h2 : stage2_parse t = none) :
    (ask_ai_recover t s).cards = stage345 t s := by
  simp only [ask_ai_recover, h1, h2]
  split <;> rfl

/-- Every card contributed by one slide carries that slide's label. -/
theorem slideCards_slide_label (a : Attempt) (s : Slide) (c : Card)
    (hc : c ∈ (slideCards a s).1) :
    c.slide = "Slide " ++ toString s.slide_num := by
  simp only [slideCards] at hc
  by_cases hg : has_meaningful_content (clean_slide_content s) = true
  · rw [if_pos hg] at hc
    rcases hra : runAttempts a with ⟨o, n⟩
    rw [hra] at hc
    cases o with
    | some qas =>
      simp only [stampCards, List.mem_map] at hc
      obtain ⟨qa, _, rfl⟩ := hc
      simp [clean_slide_content_slide_num]
    | none =>
      simp only [fallback_cards] at hc
      split at hc
      · simp at hc
        rw [hc]
        simp [clean_slide_content_slide_num]
      · simp at hc
  · rw [if_neg hg] at hc
    simp at hc

/-- Every card produced by the slide loop originates from one of the slides
and carries that slide's label. -/
theorem generate_aux_mem (oracle : Nat → Attempt) (slides : List Slide) (i : Nat) (c : Card)
    (hc : c ∈ (generate_flashcards_aux oracle i slides).1) :
    ∃ s ∈ slides, c.slide = "Slide " ++ toString s.slide_num := by
  induction slides generalizing i with
  | nil => simp [generate_flashcards_aux] at hc
  | cons s rest ih =>
    simp only [generate_flashcards_aux, List.mem_append] at hc
    rcases hc with hc | hc
    · exact ⟨s, by simp, slideCards_slide_label _ _ _ hc⟩
    · obtain ⟨s2, hs2, hlab⟩ := ih (i + 1) hc
      exact ⟨s2, by simp [hs2], hlab⟩

/-- The notes accumulated by the deck loop. -/
theorem addNotes_notes (cs : List Card) (d : Deck) :
    (addNotes d cs).notes = d.notes ++ cs.map noteOfCard := by
  induction cs generalizing d with
  | nil => simp [addNotes]
  | cons c cs ih => simp [addNotes, ih]

/-! ### Claim theorems -/

/-- Claim C1, counterexample: the response text `"[]"` parses at stage 1 and
the recovery function returns the empty array, so the result is not a
non-empty list of question/answer pairs. -/
theorem claim_C1_counterexample :
    (ask_ai_recover "[]" "some slide" ).cards = Json.arr [] ∧
      Json.isNonemptyArray (Json.arr []) = false :=
  ⟨rfl, rfl⟩

/-- Claim C1 (amended): the recovery chain of `_ask_ai_for_cards` is total
(never raises outward; a parse failure at one stage advances to the next), and
whenever the two JSON-parsing stages both fail it returns a non-empty list of
question/answer pairs.  (When stage 1 or stage 2 succeeds, the parsed JSON
value is returned as is, and it may be empty, e.g. for the response `"[]"`.) -/
theorem claim_C1_holds (t s : String)
    (h1 : json_loads t = none) (h2 : stage2_parse t = none) :
    ∃ ps : List (String × String), ps ≠ [] ∧
      (ask_ai_recover t s).cards = Json.arr (ps.map (fun p => mkQA p.1 p.2)) := by
  rw [ask_ai_recover_fallthrough t s h1 h2]
  exact stage345_shape t s

/-- Claim C1, witness: a concrete unparseable response yields a non-empty
list of pairs. -/
theorem claim_C1_witness :
    ∃ ps : List (String × String), ps ≠ [] ∧
      (ask_ai_recover "no json here" "S").cards = Json.arr (ps.map (fun p => mkQA p.1 p.2)) :=
  claim_C1_holds "no json here" "S" rfl rfl

/-- Claim C2, counterexample: the title `"123"` matches the purely-numeric
boilerplate pattern and the content `" \nfoo"` has a non-empty line (`"foo"`),
yet the cleaner does not promote it, because the source only inspects the
FIRST content line, which here is blank. -/
theorem claim_C2_counterexample :
    title_is_boilerplate "123" = true ∧
      (pySplitNl " \nfoo").dropWhile (fun l => pyStrip l == "") = ["foo"] ∧
      (clean_slide_content ⟨"123", " \nfoo", 7⟩).title ≠ "foo" :=
  ⟨rfl, rfl, by decide⟩

/-- Claim C2 (amended): for a slide whose title matches one of the three
boilerplate patterns, if the FIRST line of the content is non-blank, the
returned title is that line stripped and the returned content is the remaining
lines joined with newlines and stripped; if the first content line is blank
the slide is returned unchanged; a slide whose title matches no pattern is
returned unchanged. -/
theorem claim_C2_holds (s : Slide) :
    (title_is_boilerplate s.title = false → clean_slide_content s = s) ∧
    (title_is_boilerplate s.title = true →
      ∀ l0 ls, pySplitNl s.content = l0 :: ls →
        (pyStrip l0 ≠ "" →
          clean_slide_content s =
            { title := pyStrip l0
              content := pyStrip (joinNl ls)
              slide_num := s.slide_num }) ∧
        (pyStrip l0 = "" → clean_slide_content s = s)) := by
  constructor
  · intro h
    unfold clean_slide_content
    rw [h]
    simp
  · intro h l0 ls hsplit
    constructor
    · intro hne
      unfold clean_slide_content
      rw [h, hsplit]
      simp [hne]
    · intro heq
      unfold clean_slide_content
      rw [h, hsplit]
      simp [heq]

/-- Claim C2, witness: a `"Slide N"` title is replaced by the first content
line, with the remaining lines as content. -/
theorem claim_C2_witness :
    clean_slide_content ⟨"Slide 4", "Real Title\nBody line", 2⟩ =
      ⟨"Real Title", "Body line", 2⟩ :=
  ((claim_C2_holds ⟨"Slide 4", "Real Title\nBody line", 2⟩).2 rfl
    "Real Title" ["Body line"] rfl).1 (by decide)

/-- Claim C3, counterexample: a slide with an empty cleaned title and content
of length 11 passes the meaningful-content gate, all three attempts fail, yet
NO fallback card is appended (the source guards the fallback with
`if cleaned_slide['title']:`). -/
theorem claim_C3_counterexample :
    has_meaningful_content (clean_slide_content ⟨"", "12345678901", 1⟩) = true ∧
      slideCards (fun _ => Except.error ()) ⟨"", "12345678901", 1⟩ = ([], 3) :=
  ⟨rfl, rfl⟩

/-- Claim C3 (amended): for a slide that passes the meaningful-content gate
AND whose cleaned title is non-empty, if all three completion-client attempts
fail, exactly one synthetic fallback card is appended — question
`"Explain the concept of: {title}"`, answer the content when non-empty and the
generic placeholder otherwise, context marked auto-generated — and the
pipeline continues with the next slide. -/
theorem claim_C3_holds (oracle : Nat → Attempt) (s : Slide) (rest : List Slide)
    (h0 : oracle 0 0 = Except.error ()) (h1 : oracle 0 1 = Except.error ())
    (h2 : oracle 0 2 = Except.error ())
    (hg : has_meaningful_content (clean_slide_content s) = true)
    (ht : (clean_slide_content s).title ≠ "") :
    (generate_flashcards_with_deepseek oracle (s :: rest)).1 =
      { question := "Explain the concept of: " ++ (clean_slide_content s).title
        answer := if (clean_slide_content s).content ≠ "" then (clean_slide_content s).content
                  else "Review the slide content."
        slide := "Slide " ++ toString (clean_slide_content s).slide_num
        context := "Auto-generated (DeepSeek API failed)" }
        :: (generate_flashcards_aux oracle 1 rest).1 := by
  have hr : runAttempts (oracle 0) = (none, 3) := by
    unfold runAttempts
    rw [h0, h1, h2]
  have hs : slideCards (oracle 0) s = (fallback_cards (clean_slide_content s), 3) := by
    simp only [slideCards]
    rw [if_pos hg, hr]
  have hgen : (generate_flashcards_with_deepseek oracle (s :: rest)).1 =
      (slideCards (oracle 0) s).1 ++ (generate_flashcards_aux oracle 1 rest).1 := rfl
  rw [hgen, hs]
  unfold fallback_cards
  rw [if_pos ht]
  simp

/-- Claim C3, witness: all attempts failing on a titled slide with empty
content yields exactly the synthetic fallback card. -/
theorem claim_C3_witness :
    (generate_flashcards_with_deepseek (fun _ _ => Except.error ()) [⟨"Title", "", 4⟩]).1 =
      [⟨"Explain the concept of: Title", "Review the slide content.", "Slide 4",
        "Auto-generated (DeepSeek API failed)"⟩] :=
  claim_C3_holds (fun _ _ => Except.error ()) ⟨"Title", "", 4⟩ []
    rfl rfl rfl (by decide) (by decide)

/-- Claim C4: a response that is a well-formed JSON array string is returned
exactly as stage 1 parses it, and the stage-2 quote-repair transform is not
applied. -/
theorem claim_C4_holds (t s : String) (vs : List Json)
    (h : json_loads t = some (Json.arr vs)) :
    ask_ai_recover t s = ⟨Json.arr vs, false⟩ := by
  simp only [ask_ai_recover, h]

/-- Claim C4, witness: a concrete well-formed JSON array response. -/
theorem claim_C4_witness :
    ask_ai_recover "[\x7b\"question\": \"Q1\", \"answer\": \"A1\"\x7d]" "slide text" =
      ⟨Json.arr [Json.obj [("question", Json.str "Q1"), ("answer", Json.str "A1")]], false⟩ :=
  claim_C4_holds _ _ _ rfl

/-- Claim C5: when stages 1-4 all yield nothing, the recovery chain returns
exactly one pair — question `"Review this slide"`, answer the original full
slide text verbatim. -/
theorem claim_C5_holds (t s : String)
    (h1 : json_loads t = none) (h2 : stage2_parse t = none)
    (h3 : stage3_pairs t = []) (h4 : stage4_pairs t = []) :
    (ask_ai_recover t s).cards = Json.arr [mkQA "Review this slide" s] := by
  rw [ask_ai_recover_fallthrough t s h1 h2]
  unfold stage345 stage34_pairs
  rw [h3, h4]

/-- Claim C5, witness: a response with no recognizable structure echoes the
slide text. -/
theorem claim_C5_witness :
    (ask_ai_recover "nothing to see" "Title: X\n\nContent: Y").cards =
      Json.arr [mkQA "Review this slide" "Title: X\n\nContent: Y"] :=
  claim_C5_holds "nothing to see" "Title: X\n\nContent: Y" rfl rfl rfl rfl

/-- Claim C6: a slide whose cleaned title has length at most 3 and cleaned
content length at most 10 contributes zero cards and zero completion-client
calls; cleaned title longer than 3 or cleaned content longer than 10 passes
the meaningful-content gate. -/
theorem claim_C6_holds (a : Attempt) (s : Slide) :
    ((clean_slide_content s).title.length ≤ 3 →
      (clean_slide_content s).content.length ≤ 10 →
      slideCards a s = ([], 0)) ∧
    (3 < (clean_slide_content s).title.length ∨ 10 < (clean_slide_content s).content.length →
      has_meaningful_content (clean_slide_content s) = true) := by
  constructor
  · intro h1 h2
    have hg : has_meaningful_content (clean_slide_content s) = false := by
      simp only [has_meaningful_content, Bool.or_eq_false_iff, decide_eq_false_iff_not]
      omega
    simp only [slideCards]
    rw [if_neg (by simp [hg])]
  · intro h
    simp only [has_meaningful_content, Bool.or_eq_true, decide_eq_true_eq]
    exact h

/-- Claim C6, witness: a short slide is skipped with no client call. -/
theorem claim_C6_witness :
    slideCards (fun _ => Except.error ()) ⟨"ab", "cdef", 9⟩ = ([], 0) :=
  (claim_C6_holds (fun _ => Except.error ()) ⟨"ab", "cdef", 9⟩).1 (by decide) (by decide)

/-- Claim C7: every card in the generated list carries a non-empty slide label
of the form `"Slide N"` for an originating slide, and a slide that fails the
meaningful-content gate contributes no card. -/
theorem claim_C7_holds (oracle : Nat → Attempt) (slides : List Slide) :
    (∀ c ∈ (generate_flashcards_with_deepseek oracle slides).1,
      c.slide ≠ "" ∧ ∃ s ∈ slides, c.slide = "Slide " ++ toString s.slide_num) ∧
    (∀ (a : Attempt) (s : Slide),
      has_meaningful_content (clean_slide_content s) = false → (slideCards a s).1 = []) := by
  constructor
  · intro c hc
    obtain ⟨s, hs, hlab⟩ := generate_aux_mem oracle slides 0 c hc
    exact ⟨by rw [hlab]; exact slide_label_ne_empty _, s, hs, hlab⟩
  · intro a s hg
    simp only [slideCards]
    rw [if_neg (by simp [hg])]

/-- Claim C7, witness: the card generated for slide 3 carries the non-empty
label "Slide 3". -/
theorem claim_C7_witness :
    (⟨"q1", "a1", "Slide 3", "Hello"⟩ : Card).slide ≠ "" ∧
      ∃ s ∈ [(⟨"Hello", "World", 3⟩ : Slide)],
        (⟨"q1", "a1", "Slide 3", "Hello"⟩ : Card).slide = "Slide " ++ toString s.slide_num :=
  (claim_C7_holds (fun _ _ => Except.ok [⟨"q1", "a1"⟩]) [⟨"Hello", "World", 3⟩]).1
    ⟨"q1", "a1", "Slide 3", "Hello"⟩ (by decide)

/-- Claim C8: the deck's entries correspond one-to-one, in order, to the input
cards, each entry's visible fields being the card's question, answer, slide
label and context. -/
theorem claim_C8_holds (deck_id : Nat) (cards : List Card) (deck_name : String) :
    (create_anki_deck deck_id cards deck_name).notes =
      cards.map (fun c => Note.mk [c.question, c.answer, c.slide, c.context]) ∧
    (create_anki_deck deck_id cards deck_name).notes.length = cards.length := by
  have h := addNotes_notes cards { deck_id := deck_id, name := deck_name, notes := [] }
  constructor
  · simpa [create_anki_deck, noteOfCard] using h
  · rw [create_anki_deck, h]
    simp

/-- Claim C9: a file path whose lowercased extension is not ".pdf" is rejected
immediately, with zero completion-client calls. -/
theorem claim_C9_holds (oracle : Nat → Attempt) (extracted : List Slide)
    (file_path deck_name : String) (deck_id : Nat)
    (h : pyLower (splitext_ext file_path) ≠ ".pdf") :
    process_file oracle extracted file_path deck_name deck_id =
      (Except.error ("Unsupported file format: " ++ pyLower (splitext_ext file_path)), 0) := by
  unfold process_file
  rw [if_neg h]

/-- Claim C9, witness: a ".txt" path is rejected with no client call. -/
theorem claim_C9_witness :
    process_file (fun _ _ => Except.error ()) [] "notes.txt" "Deck" 1 =
      (Except.error "Unsupported file format: .txt", 0) :=
  claim_C9_holds (fun _ _ => Except.error ()) [] "notes.txt" "Deck" 1 (by decide)

/-- Claim C10: cleaning never changes the slide number — only the title and
content fields may be revised. -/
theorem claim_C10_holds (s : Slide) :
    (clean_slide_content s).slide_num = s.slide_num :=
  clean_slide_content_slide_num s

end PresentationToAnki
